import Mathlib

/-!
Shallow embedding of the playback control core of `src/rhytmiq/media_player.py`
(class `MediaPlayer`), together with theorems settling the specification claims.

Conventions of the embedding:
* Machine state is the record `MediaPlayer` below, one field per mutable Python
  attribute that the control core reads or writes.  Externally observable calls
  into the audio output are recorded in the ghost fields `played` (successful
  `play(...)` calls, in order) and `stops` (number of `stop()` calls);
  `notifications` records `self.notify(...)` messages.
* Python exceptions are modelled with `Except (PyErr × MediaPlayer)`: a raised
  exception carries the state of the object at the moment of the raise, since
  the Python object survives the exception with its mutations intact.
* The mutual recursion `play_song` → `next_song` → `play_song` (triggered when
  the audio output rejects a file) is made total with a fuel parameter; fuel
  exhaustion is the distinguished error `PyErr.fuelExhausted`.
* The external collaborators are parameters: `Env.ok` is
  `utils.playback.play` (load-and-play, `True` on success), `Env.meta` is
  `utils.helpers.get_metadata`, and the random permutation produced by
  `random.shuffle` is an explicit function argument of `toggle_shuffle_state`.
-/

namespace Rhytmiq

/-- `utils.constants.State` (playback status). -/
inductive State
  | STOPPED
  | PLAYING
  | PAUSED
deriving DecidableEq, Repr

/-- `utils.constants.Loop` (loop mode). -/
inductive Loop
  | NONE
  | ONE
  | ALL
deriving DecidableEq, Repr

/-- Python exceptions that the embedded code can raise, plus fuel exhaustion
(an artifact of making the unbounded Python recursion total). -/
inductive PyErr
  | valueError
  | keyError
  | typeError
  | fuelExhausted
deriving DecidableEq, Repr

/-- Result of `utils.helpers.get_metadata`. -/
structure TrackMeta where
  title : String
  artist : String
  album : String
  duration : Int
deriving DecidableEq, Repr

/-- External collaborators: `ok` is `utils.playback.play` (returns `True` when
the output accepted the media), `meta` is `utils.helpers.get_metadata`. -/
structure Env where
  ok : String → Bool
  meta : String → TrackMeta

/-- The mutable state of a `MediaPlayer` instance (fields of `__init__` and the
reactive attributes), together with the displayed playlist order
(`self.playlist.songs`, an insertion-ordered dict modelled as an association
list) and the ghost event logs. -/
structure MediaPlayer where
  audio_title : String
  artist_name : String
  album : String
  duration : Int
  state : State
  shuffle : Bool
  loop : Loop
  volume : ℚ
  playing_song : Option String
  current_playlist : Option (List (String × String))
  current_playlist_media : Option (String × String)
  playing_from_playlist : Bool
  monitor_alive : Bool
  running : Bool
  state_switch : Bool
  songs : List (String × String)
  played : List String
  stops : Nat
  notifications : List String
deriving DecidableEq, Repr

/-- Python truthiness of `self.playing_song` (a `Path` or `None`). -/
def truthy : Option String → Bool
  | none => false
  | some m => !(m == "")

/-- `list(self.playlist.songs.keys())`. -/
def keys (l : List (String × String)) : List String :=
  l.map Prod.fst

/-- `titles.index(t)`: index of the first occurrence, `none` when absent
(Python raises `ValueError` in that case). -/
def index_of (t : String) : List String → Option Nat
  | [] => none
  | a :: l => if a == t then some 0 else (index_of t l).map (· + 1)

/-- Ordered-dict lookup `self.playlist.songs[k]`; `none` models `KeyError`. -/
def dict_get (k : String) : List (String × String) → Option String
  | [] => none
  | p :: l => if p.1 == k then some p.2 else dict_get k l

/-- The notification text of `play_song`'s failure branch. -/
def unableMsg : String := "Unable to play the media file."

/-- Selector for the three mutually recursive methods. -/
inductive Call
  | play (media : String) (fromPlaylist : Bool)
  | next
  | prev

/-- One fuel-indexed interpreter for the mutually recursive trio
`play_song` (lines 86-108), `next_song` (lines 187-218) and `previous_song`
(lines 220-248) of `media_player.py`.  Each branch mirrors the corresponding
Python lines; the recursive call sites are `play_song` → `next_song` (failure
branch, line 105) and `next_song`/`previous_song` → `play_song`
(lines 218/248). -/
def run : Nat → Env → Call → MediaPlayer → Except (PyErr × MediaPlayer) MediaPlayer
  | 0, _, _, s => Except.error (PyErr.fuelExhausted, s)
  | fuel + 1, env, Call.play media fromPlaylist, s =>
      -- `if not media: return`
      if media = "" then Except.ok s
      else
        -- `self.state_switch = True; self.playing_from_playlist = from_playlist`
        let s1 := { s with state_switch := true, playing_from_playlist := fromPlaylist }
        if env.ok media = true then
          -- success: state, playing_song, metadata, monitor thread, guard clear
          Except.ok { s1 with
            state := State.PLAYING,
            playing_song := some media,
            audio_title := (env.meta media).title,
            artist_name := (env.meta media).artist,
            album := (env.meta media).album,
            duration := (env.meta media).duration,
            monitor_alive := true,
            played := s1.played ++ [media],
            state_switch := false }
        else
          -- failure: `self.next_song(); self.notify(...)`, then guard clear
          match run fuel env Call.next s1 with
          | Except.error e => Except.error e
          | Except.ok s2 =>
              Except.ok { s2 with
                notifications := s2.notifications ++ [unableMsg],
                state_switch := false }
  | fuel + 1, env, Call.next, s =>
      -- `if not self.playing_song: return`
      if truthy s.playing_song = false then Except.ok s
      else if s.playing_from_playlist = false ∧ s.loop = Loop.NONE then
        -- `stop(); self.state = State.STOPPED; return`
        Except.ok { s with stops := s.stops + 1, state := State.STOPPED }
      else if s.playing_from_playlist = true ∧ s.loop ≠ Loop.ONE then
        match s.current_playlist_media with
        | none => Except.error (PyErr.keyError, s)
        | some sel =>
          match index_of sel.1 (keys s.songs) with
          | none => Except.error (PyErr.valueError, s)
          | some i =>
            if i + 1 < (keys s.songs).length then
              let title := (keys s.songs).getD (i + 1) ""
              match dict_get title s.songs with
              | none => Except.error (PyErr.keyError, s)
              | some path =>
                  run fuel env (Call.play path s.playing_from_playlist)
                    { s with current_playlist_media := some (title, path) }
            else if s.loop = Loop.ALL then
              let title := (keys s.songs).getD 0 ""
              match dict_get title s.songs with
              | none => Except.error (PyErr.keyError, s)
              | some path =>
                  run fuel env (Call.play path s.playing_from_playlist)
                    { s with current_playlist_media := some (title, path) }
            else
              Except.ok { s with stops := s.stops + 1, state := State.STOPPED }
      else
        run fuel env (Call.play (s.playing_song.getD "") s.playing_from_playlist) s
  | fuel + 1, env, Call.prev, s =>
      -- note: `previous_song` has no `if not self.playing_song` guard
      if s.playing_from_playlist = false ∧ s.loop = Loop.NONE then
        Except.ok { s with stops := s.stops + 1, state := State.STOPPED }
      else if s.playing_from_playlist = true ∧ s.loop ≠ Loop.ONE then
        match s.current_playlist_media with
        | none => Except.error (PyErr.keyError, s)
        | some sel =>
          match index_of sel.1 (keys s.songs) with
          | none => Except.error (PyErr.valueError, s)
          | some i =>
            if 0 < i then
              let title := (keys s.songs).getD (i - 1) ""
              match dict_get title s.songs with
              | none => Except.error (PyErr.keyError, s)
              | some path =>
                  run fuel env (Call.play path s.playing_from_playlist)
                    { s with current_playlist_media := some (title, path) }
            else if s.loop = Loop.ALL then
              let title := (keys s.songs).getD ((keys s.songs).length - 1) ""
              match dict_get title s.songs with
              | none => Except.error (PyErr.keyError, s)
              | some path =>
                  run fuel env (Call.play path s.playing_from_playlist)
                    { s with current_playlist_media := some (title, path) }
            else
              Except.ok { s with stops := s.stops + 1, state := State.STOPPED }
      else
        run fuel env (Call.play (s.playing_song.getD "") s.playing_from_playlist) s

/-- `MediaPlayer.play_song` (lines 86-108). -/
def play_song (fuel : Nat) (env : Env) (media : String) (fromPlaylist : Bool)
    (s : MediaPlayer) : Except (PyErr × MediaPlayer) MediaPlayer :=
  run fuel env (Call.play media fromPlaylist) s

/-- `MediaPlayer.next_song` (lines 187-218). -/
def next_song (fuel : Nat) (env : Env) (s : MediaPlayer) :
    Except (PyErr × MediaPlayer) MediaPlayer :=
  run fuel env Call.next s

/-- `MediaPlayer.previous_song` (lines 220-248). -/
def previous_song (fuel : Nat) (env : Env) (s : MediaPlayer) :
    Except (PyErr × MediaPlayer) MediaPlayer :=
  run fuel env Call.prev s

/-- `MediaPlayer.play_from_playlist` (lines 110-114). -/
def play_from_playlist (fuel : Nat) (env : Env) (media : String × String)
    (s : MediaPlayer) : Except (PyErr × MediaPlayer) MediaPlayer :=
  play_song fuel env media.2 true { s with current_playlist_media := some media }

/-- `MediaPlayer.handle_song_end` (lines 127-144). -/
def handle_song_end (fuel : Nat) (env : Env) (s : MediaPlayer) :
    Except (PyErr × MediaPlayer) MediaPlayer :=
  if s.state = State.PAUSED then Except.ok s
  else if s.playing_from_playlist = false then
    if s.loop ≠ Loop.NONE then
      play_song fuel env (s.playing_song.getD "") false s
    else Except.ok { s with state := State.STOPPED }
  else if s.songs = [] then Except.ok { s with state := State.STOPPED }
  else next_song fuel env s

/-- One iteration of the watchdog loop `MediaPlayer.monitor_song_end`
(lines 116-125), for a given busy reading of `pygame.mixer.music.get_busy()`.
Returns the new state, whether the end-of-track handler was invoked, and
whether the iteration performed a `sleep` before the next check. -/
def monitor_song_end_tick (fuel : Nat) (env : Env) (busy : Bool) (s : MediaPlayer) :
    Except (PyErr × MediaPlayer) (MediaPlayer × Bool × Bool) :=
  if s.state_switch = true then Except.ok (s, false, true)
  else if s.state = State.PLAYING ∧ busy = false then
    match handle_song_end fuel env s with
    | Except.error e => Except.error e
    | Except.ok s2 => Except.ok (s2, true, true)
  else Except.ok (s, false, false)

/-- `MediaPlayer.toggle_play_state` (lines 146-156). -/
def toggle_play_state (fuel : Nat) (env : Env) (s : MediaPlayer) :
    Except (PyErr × MediaPlayer) MediaPlayer :=
  if s.state = State.PLAYING then Except.ok { s with state := State.PAUSED }
  else if s.state = State.PAUSED then Except.ok { s with state := State.PLAYING }
  else if s.state = State.STOPPED ∧ s.playing_song ≠ none then
    play_song fuel env (s.playing_song.getD "") s.playing_from_playlist s
  else Except.ok s

/-- `MediaPlayer.change_loop_state` (lines 158-166). -/
def change_loop_state (s : MediaPlayer) : MediaPlayer :=
  { s with loop :=
      match s.loop with
      | Loop.NONE => Loop.ONE
      | Loop.ONE => Loop.ALL
      | Loop.ALL => Loop.NONE }

/-- `MediaPlayer.toggle_shuffle_state` (lines 168-185).  `shuffler` stands for
the in-place permutation performed by `random.shuffle` on the copied snapshot;
`dict(self.current_playlist)` with `current_playlist = None` raises
`TypeError`, modelled by the error branch. -/
def toggle_shuffle_state (shuffler : List (String × String) → List (String × String))
    (s : MediaPlayer) : Except (PyErr × MediaPlayer) MediaPlayer :=
  if s.songs = [] then Except.ok s
  else if s.shuffle = false then
    Except.ok { s with
      current_playlist := some s.songs,
      songs := shuffler s.songs,
      shuffle := true }
  else
    match s.current_playlist with
    | none => Except.error (PyErr.typeError, s)
    | some orig => Except.ok { s with songs := orig, shuffle := false }

/-- `MediaPlayer.action_stop_song` (lines 336-339).  Line 339 reads
`self.state == State.STOPPED` — a comparison, not an assignment — so only the
external `stop()` call happens; no field of the player changes. -/
def action_stop_song (s : MediaPlayer) : MediaPlayer :=
  { s with stops := s.stops + 1 }

/-- `MediaPlayer.decrease_media_volume` (lines 250-254), for volume step
`step` (`utils.constants.VOLUME_STEP`). -/
def decrease_media_volume (step : ℚ) (s : MediaPlayer) : MediaPlayer :=
  { s with volume := if s.volume > step then s.volume - step else 0 }

/-- `MediaPlayer.increase_media_volume` (lines 256-260). -/
def increase_media_volume (step : ℚ) (s : MediaPlayer) : MediaPlayer :=
  { s with volume := if s.volume + step < 1 then s.volume + step else 1 }

/-- The state built by `__init__` (lines 49-58) with the reactive defaults
(lines 40-47); the playlist widget starts with no songs. -/
def initial_state : MediaPlayer where
  audio_title := "No title available"
  artist_name := "Unknown artist"
  album := "No album info"
  duration := 0
  state := State.STOPPED
  shuffle := false
  loop := Loop.NONE
  volume := 1 / 2
  playing_song := none
  current_playlist := none
  current_playlist_media := none
  playing_from_playlist := false
  monitor_alive := false
  running := true
  state_switch := false
  songs := []
  played := []
  stops := 0
  notifications := []

/-- The player state after an operation, whether it returned normally or
raised (the Python object keeps its mutations either way). -/
def stateOf : Except (PyErr × MediaPlayer) MediaPlayer → MediaPlayer
  | Except.ok s => s
  | Except.error e => e.2

/-- One public operation of the controller, as observed on the player state;
`loadSongs` models the external population/mutation of the playlist widget's
displayed order. -/
inductive Step : MediaPlayer → MediaPlayer → Prop
  | play (fuel : Nat) (env : Env) (media : String) (fp : Bool) (s : MediaPlayer) :
      Step s (stateOf (play_song fuel env media fp s))
  | playFromPlaylist (fuel : Nat) (env : Env) (media : String × String) (s : MediaPlayer) :
      Step s (stateOf (play_from_playlist fuel env media s))
  | togglePlay (fuel : Nat) (env : Env) (s : MediaPlayer) :
      Step s (stateOf (toggle_play_state fuel env s))
  | stopSong (s : MediaPlayer) : Step s (action_stop_song s)
  | next (fuel : Nat) (env : Env) (s : MediaPlayer) :
      Step s (stateOf (next_song fuel env s))
  | prev (fuel : Nat) (env : Env) (s : MediaPlayer) :
      Step s (stateOf (previous_song fuel env s))
  | cycleLoop (s : MediaPlayer) : Step s (change_loop_state s)
  | shuffleToggle (sh : List (String × String) → List (String × String)) (s : MediaPlayer) :
      Step s (stateOf (toggle_shuffle_state sh s))
  | volUp (step : ℚ) (s : MediaPlayer) : Step s (increase_media_volume step s)
  | volDown (step : ℚ) (s : MediaPlayer) : Step s (decrease_media_volume step s)
  | songEnd (fuel : Nat) (env : Env) (s : MediaPlayer) :
      Step s (stateOf (handle_song_end fuel env s))
  | loadSongs (l : List (String × String)) (s : MediaPlayer) :
      Step s { s with songs := l }

/-- States reachable from startup by the public operations. -/
def Reachable (s : MediaPlayer) : Prop :=
  Relation.ReflTransGen Step initial_state s

/-- The shuffle-snapshot invariant: while shuffle is on, the retained snapshot
of the original displayed order is present. -/
def Inv (s : MediaPlayer) : Prop :=
  s.shuffle = true → s.current_playlist ≠ none

/-! ### Concrete environments and states used by witnesses and counterexamples -/

/-- An audio output that accepts every file, with constant metadata. -/
def envT : Env where
  ok := fun _ => true
  meta := fun _ => { title := "t", artist := "a", album := "b", duration := 0 }

/-- An audio output that rejects every file. -/
def envF : Env where
  ok := fun _ => false
  meta := fun _ => { title := "t", artist := "a", album := "b", duration := 0 }

/-- Playing the first entry of a two-entry playlist, loop ALL. -/
def sNavW : MediaPlayer := { initial_state with
  playing_song := some "a"
  playing_from_playlist := true
  loop := Loop.ALL
  state := State.PLAYING
  current_playlist_media := some ("A", "a")
  songs := [("A", "a"), ("B", "b")] }

/-- Playing from the playlist, but the displayed order has become empty. -/
def sEmptyPl : MediaPlayer := { initial_state with
  playing_song := some "x"
  playing_from_playlist := true
  loop := Loop.NONE
  state := State.PLAYING
  current_playlist_media := some ("A", "a")
  songs := [] }

/-- Playing from the playlist, but the selected title is gone from the
displayed order (stale selection). -/
def sStalePl : MediaPlayer := { sEmptyPl with songs := [("B", "b")] }

/-- A track was played before; a later play attempt will be made while the
playlist no longer contains the selection. -/
def sFailBase : MediaPlayer := { initial_state with
  playing_song := some "x"
  current_playlist_media := some ("A", "a")
  loop := Loop.NONE }

/-- `playing_from_playlist` with a selection but no current track: reachable
when the play attempt launched from the playlist was rejected by the output. -/
def sNoTrack : MediaPlayer := { initial_state with
  playing_from_playlist := true
  loop := Loop.ALL
  current_playlist_media := some ("B", "b")
  songs := [("A", "a"), ("B", "b")]
  playing_song := none }

/-- A playing state, used for the stop-action evaluation. -/
def sPlaying : MediaPlayer := { initial_state with
  state := State.PLAYING
  playing_song := some "x" }

/-- A state in the middle of a track switch (transition guard set). -/
def sGuard : MediaPlayer := { sPlaying with state_switch := true }

/-- Startup state with a loaded one-entry playlist. -/
def sLoaded : MediaPlayer := { initial_state with songs := [("A", "a")] }

/-- `sLoaded` after toggling shuffle on with the identity permutation. -/
def sShuffledOn : MediaPlayer := { sLoaded with
  current_playlist := some [("A", "a")]
  shuffle := true }

/-! ### Helper lemmas -/

theorem length_keys (l : List (String × String)) : (keys l).length = l.length := by
  simp [keys]

theorem getD_mem {l : List String} {j : Nat} (h : j < l.length) (d : String) :
    l.getD j d ∈ l := by
  induction l generalizing j with
  | nil => simp at h
  | cons a t ih =>
    cases j with
    | zero => simp [List.getD]
    | succ k =>
      have hk : k < t.length := Nat.lt_of_succ_lt_succ h
      simpa [List.getD] using Or.inr (ih hk)

theorem dict_get_mem {k : String} :
    ∀ {l : List (String × String)}, k ∈ keys l → ∃ v, dict_get k l = some v := by
  intro l h
  induction l with
  | nil => simp [keys] at h
  | cons p t ih =>
    by_cases hk : p.1 == k
    · exact ⟨p.2, by simp [dict_get, hk]⟩
    · have hmem : k ∈ keys t := by
        have h' : k = p.1 ∨ ∃ x, (k, x) ∈ t := by simpa [keys] using h
        rcases h' with h1 | ⟨x, hx⟩
        · exact absurd (by simp [h1]) hk
        · simpa [keys] using ⟨x, hx⟩
      obtain ⟨v, hv⟩ := ih hmem
      exact ⟨v, by simp [dict_get, hk, hv]⟩

theorem index_of_lt_length {t : String} :
    ∀ {l : List String} {i : Nat}, index_of t l = some i → i < l.length := by
  intro l
  induction l with
  | nil => intro i h; simp [index_of] at h
  | cons a tl ih =>
    intro i h
    simp only [List.length_cons]
    by_cases ha : (a == t) = true
    · simp [index_of, ha] at h
      omega
    · simp only [index_of] at h
      rw [if_neg ha] at h
      rcases Option.map_eq_some'.mp h with ⟨j, hj, hji⟩
      have := ih hj
      omega

/-! ### Claim theorems -/

/-- C2: evaluation of the code at the failing inputs.  With
`playingFromPlaylist` true and loop not ONE, when the displayed order is empty
(`sEmptyPl`) or no longer contains the current selection's title (`sStalePl`),
`next_song` and `previous_song` do not resolve as Stop: `titles.index(...)`
raises `ValueError` (the operations error out with the state unchanged),
contradicting the claim that navigation stops and never raises. -/
theorem empty_or_stale_navigation_raises :
    next_song 3 envT sEmptyPl = Except.error (PyErr.valueError, sEmptyPl)
  ∧ previous_song 3 envT sEmptyPl = Except.error (PyErr.valueError, sEmptyPl)
  ∧ next_song 3 envT sStalePl = Except.error (PyErr.valueError, sStalePl)
  ∧ previous_song 3 envT sStalePl = Except.error (PyErr.valueError, sStalePl) :=
  ⟨by rfl, by rfl, by rfl, by rfl⟩

/-- C3: evaluation of the code at the failing input.  `action_stop_song`
calls the external `stop()` (the stops counter grows) and leaves `currentTrack`
unchanged, but line 339 is `self.state == State.STOPPED` — a comparison, not an
assignment — so from a PLAYING state the status stays PLAYING instead of
becoming STOPPED. -/
theorem stop_action_leaves_state_unchanged :
    action_stop_song sPlaying = { sPlaying with stops := sPlaying.stops + 1 }
  ∧ (action_stop_song sPlaying).state = State.PLAYING
  ∧ (action_stop_song sPlaying).state ≠ State.STOPPED
  ∧ (action_stop_song sPlaying).playing_song = sPlaying.playing_song :=
  ⟨by rfl, by rfl, by decide, by rfl⟩

/-- C5: on any watchdog tick taken while the transition guard
(`state_switch`) is true, the iteration is skipped entirely: the end-of-track
handler is not invoked (handled flag is false), the state is unchanged, and
the tick waits before re-checking — even if the output reports idle while
status is PLAYING. -/
theorem watchdog_skips_tick_when_guard_set (fuel : Nat) (env : Env) (busy : Bool)
    (s : MediaPlayer) (h : s.state_switch = true) :
    monitor_song_end_tick fuel env busy s = Except.ok (s, false, true) := by
  simp [monitor_song_end_tick, h]

theorem watchdog_skips_tick_when_guard_set_witness :
    monitor_song_end_tick 1 envT false sGuard = Except.ok (sGuard, false, true) :=
  watchdog_skips_tick_when_guard_set 1 envT false sGuard (by rfl)

/-- C8 counterexample: a watchdog iteration taken with the guard clear while
nothing is playing ends with no wait at all (the slept flag is false), so the
loop busy-spins when idle, contradicting the claim that every iteration ends
with a bounded wait. -/
theorem watchdog_idle_tick_does_not_wait :
    monitor_song_end_tick 1 envT true initial_state
      = Except.ok (initial_state, false, false) := by
  rfl

/-- C8 amended: an iteration of the watchdog loop waits before re-checking
exactly when the transition guard is set, or when status is PLAYING and the
output reports idle (i.e. after invoking the end-of-track handler); in all
other iterations — status not PLAYING, or output still busy — the loop
performs no wait and busy-spins. -/
theorem watchdog_wait_iff_guard_or_song_end (fuel : Nat) (env : Env) (busy : Bool)
    (s s' : MediaPlayer) (handled slept : Bool)
    (h : monitor_song_end_tick fuel env busy s = Except.ok (s', handled, slept)) :
    slept = true ↔ (s.state_switch = true ∨ (s.state = State.PLAYING ∧ busy = false)) := by
  unfold monitor_song_end_tick at h
  by_cases h1 : s.state_switch = true
  · simp only [h1, if_true] at h
    obtain ⟨rfl, rfl, rfl⟩ : s = s' ∧ false = handled ∧ true = slept := by
      simpa using h
    simp [h1]
  · simp only [h1, if_false] at h
    by_cases h2 : s.state = State.PLAYING ∧ busy = false
    · rw [if_pos h2] at h
      rcases hh : handle_song_end fuel env s with e | s2 <;> rw [hh] at h
      · cases h
      · obtain ⟨rfl, rfl, rfl⟩ : s2 = s' ∧ true = handled ∧ true = slept := by
          simpa using h
        simp [h2]
    · rw [if_neg h2] at h
      obtain ⟨rfl, rfl, rfl⟩ : s = s' ∧ false = handled ∧ false = slept := by
        simpa using h
      simp [h1, h2]

theorem watchdog_wait_iff_guard_or_song_end_witness :
    (false = true ↔ (initial_state.state_switch = true ∨
      (initial_state.state = State.PLAYING ∧ true = false))) :=
  watchdog_wait_iff_guard_or_song_end 1 envT true initial_state initial_state
    false false (by rfl)

/-- C9: for any volume in `[0, 1]` and any nonnegative step, one decrease
step yields `clamp(volume - step, 0, 1)` and one increase step yields
`clamp(volume + step, 0, 1)`, snapping exactly to the boundary; in particular
increase at volume 1 stays 1 and decrease at volume 0 stays 0. -/
theorem volume_step_clamps (step : ℚ) (s : MediaPlayer)
    (hstep : 0 ≤ step) (h0 : 0 ≤ s.volume) (h1 : s.volume ≤ 1) :
    (decrease_media_volume step s).volume = max 0 (min 1 (s.volume - step))
  ∧ (increase_media_volume step s).volume = max 0 (min 1 (s.volume + step))
  ∧ (s.volume = 1 → (increase_media_volume step s).volume = 1)
  ∧ (s.volume = 0 → (decrease_media_volume step s).volume = 0) := by
  refine ⟨?_, ?_, ?_, ?_⟩
  · show (if s.volume > step then s.volume - step else 0) = max 0 (min 1 (s.volume - step))
    split_ifs with h
    · rw [min_eq_right (by linarith), max_eq_right (by linarith)]
    · rw [min_eq_right (by linarith), max_eq_left (by linarith)]
  · show (if s.volume + step < 1 then s.volume + step else 1) = max 0 (min 1 (s.volume + step))
    split_ifs with h
    · rw [min_eq_right (by linarith), max_eq_right (by linarith)]
    · rw [min_eq_left (by linarith), max_eq_right (by linarith)]
  · intro hv
    show (if s.volume + step < 1 then s.volume + step else 1) = 1
    rw [if_neg (by rw [hv]; intro hc; linarith)]
  · intro hv
    show (if s.volume > step then s.volume - step else 0) = 0
    rw [if_neg (by rw [hv]; intro hc; linarith)]

theorem volume_step_clamps_witness :
    (decrease_media_volume (1 / 10) initial_state).volume
      = max 0 (min 1 (initial_state.volume - 1 / 10))
  ∧ (increase_media_volume (1 / 10) initial_state).volume
      = max 0 (min 1 (initial_state.volume + 1 / 10))
  ∧ (initial_state.volume = 1 → (increase_media_volume (1 / 10) initial_state).volume = 1)
  ∧ (initial_state.volume = 0 → (decrease_media_volume (1 / 10) initial_state).volume = 0) :=
  volume_step_clamps (1 / 10) initial_state (by norm_num)
    (by norm_num [initial_state]) (by norm_num [initial_state])

/-- C6: for any non-empty playlist with shuffle currently off, toggling
shuffle on (with any permutation the RNG produces) and then toggling it off
restores the exact original displayed order. -/
theorem shuffle_round_trip (sh1 sh2 : List (String × String) → List (String × String))
    (s : MediaPlayer) (hne : s.songs ≠ []) (hsh : s.shuffle = false)
    (hperm : (sh1 s.songs).Perm s.songs) :
    ∃ s1 s2, toggle_shuffle_state sh1 s = Except.ok s1
      ∧ toggle_shuffle_state sh2 s1 = Except.ok s2
      ∧ s2.songs = s.songs ∧ s2.shuffle = false := by
  have hne' : sh1 s.songs ≠ [] := by
    intro hcon
    apply hne
    have hlen := hperm.length_eq
    rw [hcon] at hlen
    exact List.length_eq_zero.mp hlen.symm
  refine ⟨{ s with current_playlist := some s.songs, songs := sh1 s.songs, shuffle := true },
    { s with current_playlist := some s.songs, songs := s.songs, shuffle := false },
    ?_, ?_, by rfl, by rfl⟩
  · show (if s.songs = [] then _ else if s.shuffle = false then _ else _) = _
    rw [if_neg hne, if_pos hsh]
  · show (if sh1 s.songs = [] then _ else if (true : Bool) = false then _ else _) = _
    rw [if_neg hne', if_neg (by simp)]

theorem shuffle_round_trip_witness :
    ∃ s1 s2, toggle_shuffle_state List.reverse sLoaded = Except.ok s1
      ∧ toggle_shuffle_state (fun l => l) s1 = Except.ok s2
      ∧ s2.songs = sLoaded.songs ∧ s2.shuffle = false :=
  shuffle_round_trip List.reverse (fun l => l) sLoaded (by decide) (by rfl) (by decide)

/-- C7 counterexample: in `sNoTrack` the current track is `None`, yet
`advancePrevious()` does not resolve to Stop: `previous_song` (which, unlike
`next_song`, has no `if not self.playing_song` guard) navigates to the
previous playlist entry and plays it. -/
theorem previous_song_plays_without_current_track :
    sNoTrack.playing_song = none
  ∧ previous_song 3 envT sNoTrack = Except.ok { sNoTrack with
      current_playlist_media := some ("A", "a")
      state := State.PLAYING
      playing_song := some "a"
      audio_title := "t"
      artist_name := "a"
      album := "b"
      duration := 0
      monitor_alive := true
      played := ["a"]
      state_switch := false }
  ∧ (stateOf (previous_song 3 envT sNoTrack)).state = State.PLAYING
  ∧ (stateOf (previous_song 3 envT sNoTrack)).played ≠ [] :=
  ⟨by rfl, by rfl, by rfl, by decide⟩

/-- C7 amended: when the current track is `None`, `next_song` returns with no
error, no playback and no state change (its early-return guard).
`previous_song` has no such guard: it stops (external stop + STOPPED) only
when not playing from a playlist with loop NONE; when not playing from a
playlist with loop ≠ NONE, or playing from a playlist with loop ONE, it
reduces to `play_song` on an empty ref, a no-op; and when playing from a
playlist with loop ≠ ONE it navigates the playlist and actually plays the
neighbouring entry (see the counterexample) instead of stopping. -/
theorem navigation_with_no_current_track (fuel : Nat) (env : Env) (s : MediaPlayer)
    (h : s.playing_song = none) :
    next_song (fuel + 1) env s = Except.ok s
  ∧ (s.playing_from_playlist = false → s.loop = Loop.NONE →
      previous_song (fuel + 1) env s
        = Except.ok { s with stops := s.stops + 1, state := State.STOPPED })
  ∧ (s.playing_from_playlist = false → s.loop ≠ Loop.NONE →
      previous_song (fuel + 2) env s = Except.ok s)
  ∧ (s.playing_from_playlist = true → s.loop = Loop.ONE →
      previous_song (fuel + 2) env s = Except.ok s) := by
  refine ⟨?_, ?_, ?_, ?_⟩
  · show run (fuel + 1) env Call.next s = _
    simp [run, truthy, h]
  · intro hfp hl
    show run (fuel + 1) env Call.prev s = _
    simp [run, hfp, hl]
  · intro hfp hl
    show run (fuel + 2) env Call.prev s = _
    simp [run, hfp, hl, h]
  · intro hfp hl
    show run (fuel + 2) env Call.prev s = _
    simp [run, hfp, hl, h]

theorem navigation_with_no_current_track_witness :
    next_song 1 envT initial_state = Except.ok initial_state :=
  (navigation_with_no_current_track 0 envT initial_state (by rfl)).1

/-- C4 counterexample: a `play_song` call with a non-empty ref on which the
output fails, made while the playlist no longer contains the current
selection, lets the `ValueError` raised by the inner `next_song` propagate:
no warning is emitted and the transition guard (`state_switch`) is left set
when the call exits — contradicting the claim that the guard is always false
when the call returns and that failures are reported instead of propagated. -/
theorem play_song_failure_can_leave_guard_set :
    play_song 5 envF "m" true sFailBase
      = Except.error (PyErr.valueError,
          { sFailBase with state_switch := true, playing_from_playlist := true })
  ∧ (stateOf (play_song 5 envF "m" true sFailBase)).state_switch = true
  ∧ (stateOf (play_song 5 envF "m" true sFailBase)).notifications = [] :=
  ⟨by rfl, by rfl, by rfl⟩

/-- C4 amended: whenever a `play_song` call with a non-empty ref returns
normally — on the success path and on the failure path alike — the transition
guard is false; and on a normally-returning failure path the result is exactly
the state produced by advancing to the next track, plus the non-fatal warning
notification, with the guard cleared.  (When the advance itself raises —
playlist empty or stale selection, the C2 defect — the exception propagates
and the guard stays set, as the counterexample shows.) -/
theorem play_song_clears_guard_on_return (fuel : Nat) (env : Env) (media : String)
    (fp : Bool) (s : MediaPlayer) (hm : media ≠ "") :
    (∀ s', play_song fuel env media fp s = Except.ok s' → s'.state_switch = false)
  ∧ (∀ s', env.ok media = false → play_song (fuel + 1) env media fp s = Except.ok s' →
      ∃ s2, next_song fuel env
          { s with state_switch := true, playing_from_playlist := fp } = Except.ok s2
        ∧ s' = { s2 with
            notifications := s2.notifications ++ [unableMsg]
            state_switch := false }) := by
  constructor
  · intro s' h
    cases fuel with
    | zero => simp [play_song, run] at h
    | succ n =>
      simp only [play_song, run] at h
      rw [if_neg hm] at h
      by_cases hok : env.ok media = true
      · rw [if_pos hok] at h
        obtain rfl : _ = s' := by simpa using h
        rfl
      · rw [if_neg hok] at h
        rcases hr : run n env Call.next
            { s with state_switch := true, playing_from_playlist := fp } with e | s2 <;>
          rw [hr] at h
        · cases h
        · obtain rfl : _ = s' := by simpa using h
          rfl
  · intro s' hok h
    simp only [play_song, run] at h
    rw [if_neg hm, if_neg (by simp [hok])] at h
    rcases hr : run fuel env Call.next
        { s with state_switch := true, playing_from_playlist := fp } with e | s2 <;>
      rw [hr] at h
    · cases h
    · refine ⟨s2, hr, ?_⟩
      obtain rfl : _ = s' := by simpa using h
      rfl

theorem play_song_clears_guard_on_return_witness :
    ({ initial_state with playing_from_playlist := true, notifications := [unableMsg] } : MediaPlayer).state_switch = false :=
  (play_song_clears_guard_on_return 2 envF "m" true initial_state (by decide)).1
    { initial_state with playing_from_playlist := true, notifications := [unableMsg] }
    (by rfl)

/-- C1: navigation across the displayed playlist order.  With a current track
present, `playingFromPlaylist` true, loop not ONE, and the current selection's
title at index `i` of the displayed order: `next_song` targets index `i+1`
when in range, wraps to index `0` when out of range with loop ALL, and stops
when out of range with loop NONE; `previous_song` targets `i-1` when `i > 0`,
wraps to the last index when `i = 0` with loop ALL, and stops when `i = 0`
with loop NONE.  A resolved target is handed to `play_song` with
`currentPlaylistSelection` already updated to the target `(title, ref)` pair,
and (last conjunct) a `play_song` call the output accepts really plays that
entry, leaving the updated selection in place. -/
theorem playlist_navigation_next_previous (fuel : Nat) (env : Env) (s : MediaPlayer)
    (t p : String) (i : Nat)
    (hfp : s.playing_from_playlist = true)
    (hloop : s.loop ≠ Loop.ONE)
    (hplay : truthy s.playing_song = true)
    (hsel : s.current_playlist_media = some (t, p))
    (hidx : index_of t (keys s.songs) = some i) :
    (i + 1 < s.songs.length →
      ∃ v, dict_get ((keys s.songs).getD (i + 1) "") s.songs = some v
        ∧ next_song (fuel + 1) env s = play_song fuel env v true
            { s with current_playlist_media := some ((keys s.songs).getD (i + 1) "", v) })
  ∧ (¬ i + 1 < s.songs.length → s.loop = Loop.ALL →
      ∃ v, dict_get ((keys s.songs).getD 0 "") s.songs = some v
        ∧ next_song (fuel + 1) env s = play_song fuel env v true
            { s with current_playlist_media := some ((keys s.songs).getD 0 "", v) })
  ∧ (¬ i + 1 < s.songs.length → s.loop = Loop.NONE →
      next_song (fuel + 1) env s
        = Except.ok { s with stops := s.stops + 1, state := State.STOPPED })
  ∧ (0 < i →
      ∃ v, dict_get ((keys s.songs).getD (i - 1) "") s.songs = some v
        ∧ previous_song (fuel + 1) env s = play_song fuel env v true
            { s with current_playlist_media := some ((keys s.songs).getD (i - 1) "", v) })
  ∧ (i = 0 → s.loop = Loop.ALL →
      ∃ v, dict_get ((keys s.songs).getD (s.songs.length - 1) "") s.songs = some v
        ∧ previous_song (fuel + 1) env s = play_song fuel env v true
            { s with current_playlist_media := some ((keys s.songs).getD (s.songs.length - 1) "", v) })
  ∧ (i = 0 → s.loop = Loop.NONE →
      previous_song (fuel + 1) env s
        = Except.ok { s with stops := s.stops + 1, state := State.STOPPED })
  ∧ (∀ media s0, media ≠ "" → env.ok media = true →
      play_song (fuel + 1) env media true s0 = Except.ok { s0 with
        state := State.PLAYING
        playing_song := some media
        audio_title := (env.meta media).title
        artist_name := (env.meta media).artist
        album := (env.meta media).album
        duration := (env.meta media).duration
        monitor_alive := true
        played := s0.played ++ [media]
        playing_from_playlist := true
        state_switch := false }) := by
  have hlen : i < (keys s.songs).length := index_of_lt_length hidx
  refine ⟨?_, ?_, ?_, ?_, ?_, ?_, ?_⟩
  · intro h1
    have h1k : i + 1 < (keys s.songs).length := by rw [length_keys]; exact h1
    obtain ⟨v, hv⟩ := dict_get_mem (getD_mem h1k "")
    refine ⟨v, hv, ?_⟩
    show run (fuel + 1) env Call.next s = _
    simp [run, play_song, hplay, hfp, hloop, hsel, hidx, h1k, hv,
      -List.getD_eq_getElem?_getD]
  · intro h1 hall
    have h1k : ¬ i + 1 < (keys s.songs).length := by rw [length_keys]; exact h1
    have h0k : 0 < (keys s.songs).length := Nat.lt_of_le_of_lt (Nat.zero_le i) hlen
    obtain ⟨v, hv⟩ := dict_get_mem (getD_mem h0k "")
    refine ⟨v, hv, ?_⟩
    show run (fuel + 1) env Call.next s = _
    simp [run, play_song, hplay, hfp, hsel, hidx, h1k, hall, hv,
      -List.getD_eq_getElem?_getD]
  · intro h1 hnone
    have h1k : ¬ i + 1 < (keys s.songs).length := by rw [length_keys]; exact h1
    show run (fuel + 1) env Call.next s = _
    simp [run, hplay, hfp, hsel, hidx, h1k, hnone]
  · intro h1
    have hik : i - 1 < (keys s.songs).length := Nat.lt_of_le_of_lt (Nat.sub_le i 1) hlen
    obtain ⟨v, hv⟩ := dict_get_mem (getD_mem hik "")
    refine ⟨v, hv, ?_⟩
    show run (fuel + 1) env Call.prev s = _
    simp [run, play_song, hfp, hloop, hsel, hidx, h1, hv,
      -List.getD_eq_getElem?_getD]
  · intro hi0 hall
    have hik : (keys s.songs).length - 1 < (keys s.songs).length :=
      Nat.sub_lt (Nat.lt_of_le_of_lt (Nat.zero_le i) hlen) Nat.one_pos
    obtain ⟨v, hv⟩ := dict_get_mem (getD_mem hik "")
    rw [length_keys] at hv
    refine ⟨v, hv, ?_⟩
    show run (fuel + 1) env Call.prev s = _
    simp [run, play_song, hfp, hsel, hidx, hi0, hall, hv, length_keys,
      -List.getD_eq_getElem?_getD]
  · intro hi0 hnone
    show run (fuel + 1) env Call.prev s = _
    simp [run, hfp, hsel, hidx, hi0, hnone]
  · intro media s0 hm hok
    show run (fuel + 1) env (Call.play media true) s0 = _
    simp [run, hm, hok]

theorem playlist_navigation_witness :
    ∃ v, dict_get ((keys sNavW.songs).getD 1 "") sNavW.songs = some v
      ∧ next_song 6 envT sNavW = play_song 5 envT v true
          { sNavW with current_playlist_media := some ((keys sNavW.songs).getD 1 "", v) } :=
  (playlist_navigation_next_previous 5 envT sNavW "A" "a" 0 (by rfl) (by decide)
    (by rfl) (by rfl) (by decide)).1 (by decide)

/-- None of `play_song`, `next_song`, `previous_song` ever writes the
`shuffle` flag or the `current_playlist` snapshot, whether it returns or
raises. -/
theorem run_preserves (fuel : Nat) :
    ∀ (env : Env) (c : Call) (s : MediaPlayer),
      (stateOf (run fuel env c s)).shuffle = s.shuffle
      ∧ (stateOf (run fuel env c s)).current_playlist = s.current_playlist := by
  induction fuel with
  | zero => intro env c s; exact ⟨rfl, rfl⟩
  | succ n ih =>
    intro env c s
    cases c with
    | play media fp =>
      by_cases hm : media = ""
      · simp [run, hm, stateOf]
      · by_cases hok : env.ok media = true
        · simp [run, hm, hok, stateOf]
        · have ihn := ih env Call.next
            { s with state_switch := true, playing_from_playlist := fp }
          rcases hr : run n env Call.next
              { s with state_switch := true, playing_from_playlist := fp } with e | s2 <;>
            rw [hr] at ihn
          · simpa [run, hm, hok, hr, stateOf] using ihn
          · simpa [run, hm, hok, hr, stateOf] using ihn
    | next =>
      simp only [run]
      repeat' split
      all_goals first
        | exact ⟨rfl, rfl⟩
        | exact ih env _ _
    | prev =>
      simp only [run]
      repeat' split
      all_goals first
        | exact ⟨rfl, rfl⟩
        | exact ih env _ _

theorem handle_song_end_preserves (fuel : Nat) (env : Env) (s : MediaPlayer) :
    (stateOf (handle_song_end fuel env s)).shuffle = s.shuffle
    ∧ (stateOf (handle_song_end fuel env s)).current_playlist = s.current_playlist := by
  unfold handle_song_end
  repeat' split
  all_goals first
    | exact ⟨rfl, rfl⟩
    | exact run_preserves fuel env _ _

theorem toggle_play_state_preserves (fuel : Nat) (env : Env) (s : MediaPlayer) :
    (stateOf (toggle_play_state fuel env s)).shuffle = s.shuffle
    ∧ (stateOf (toggle_play_state fuel env s)).current_playlist = s.current_playlist := by
  unfold toggle_play_state
  repeat' split
  all_goals first
    | exact ⟨rfl, rfl⟩
    | exact run_preserves fuel env _ _

theorem inv_of_pres {s s' : MediaPlayer} (h1 : s'.shuffle = s.shuffle)
    (h2 : s'.current_playlist = s.current_playlist) (h : Inv s) : Inv s' := by
  intro hs
  rw [h2]
  exact h (by rw [← h1]; exact hs)

theorem step_preserves_inv {s s' : MediaPlayer} (hstep : Step s s') (h : Inv s) :
    Inv s' := by
  cases hstep with
  | play fuel env media fp =>
    exact inv_of_pres (run_preserves fuel env _ s).1 (run_preserves fuel env _ s).2 h
  | playFromPlaylist fuel env media =>
    exact inv_of_pres (run_preserves fuel env _ _).1 (run_preserves fuel env _ _).2 h
  | togglePlay fuel env =>
    exact inv_of_pres (toggle_play_state_preserves fuel env s).1
      (toggle_play_state_preserves fuel env s).2 h
  | stopSong => exact inv_of_pres rfl rfl h
  | next fuel env =>
    exact inv_of_pres (run_preserves fuel env _ s).1 (run_preserves fuel env _ s).2 h
  | prev fuel env =>
    exact inv_of_pres (run_preserves fuel env _ s).1 (run_preserves fuel env _ s).2 h
  | cycleLoop => exact inv_of_pres rfl rfl h
  | shuffleToggle sh =>
    by_cases h0 : s.songs = []
    · have heq : stateOf (toggle_shuffle_state sh s) = s := by
        simp [toggle_shuffle_state, h0, stateOf]
      rw [heq]
      exact h
    · by_cases h1 : s.shuffle = false
      · intro hs
        simp [toggle_shuffle_state, h0, h1, stateOf]
      · have hsh : s.shuffle = true := by
          cases hb : s.shuffle
          · exact absurd hb h1
          · rfl
        have hcp := h hsh
        rcases hc : s.current_playlist with _ | orig
        · exact absurd hc hcp
        · intro hs
          simp [toggle_shuffle_state, h0, hsh, hc, stateOf] at hs
  | volUp step => exact inv_of_pres rfl rfl h
  | volDown step => exact inv_of_pres rfl rfl h
  | songEnd fuel env =>
    exact inv_of_pres (handle_song_end_preserves fuel env s).1
      (handle_song_end_preserves fuel env s).2 h
  | loadSongs l => exact inv_of_pres rfl rfl h

theorem reachable_inv {s : MediaPlayer} (h : Reachable s) : Inv s := by
  unfold Reachable at h
  induction h with
  | refl => intro hs; simp [initial_state] at hs
  | tail hab hbc ih => exact step_preserves_inv hbc ih

/-- C10: in every state reachable from the initial state (shuffle off,
snapshot absent) by the public operations, shuffle being on implies the
retained snapshot of the original playlist order is present, and consequently
the shuffle toggle always succeeds (the shuffle-off branch never dereferences
a missing snapshot — no `TypeError` from `dict(None)`). -/
theorem shuffle_snapshot_invariant (s : MediaPlayer) (h : Reachable s)
    (hs : s.shuffle = true) :
    s.current_playlist ≠ none
  ∧ ∀ sh, ∃ s', toggle_shuffle_state sh s = Except.ok s' := by
  have hcp := reachable_inv h hs
  refine ⟨hcp, ?_⟩
  intro sh
  by_cases h0 : s.songs = []
  · exact ⟨s, by simp [toggle_shuffle_state, h0]⟩
  · rcases hc : s.current_playlist with _ | orig
    · exact absurd hc hcp
    · refine ⟨{ s with songs := orig, shuffle := false }, ?_⟩
      simp [toggle_shuffle_state, h0, hs, hc]

theorem shuffle_snapshot_invariant_witness :
    sShuffledOn.current_playlist ≠ none :=
  (shuffle_snapshot_invariant sShuffledOn
    (Relation.ReflTransGen.tail
      (Relation.ReflTransGen.tail Relation.ReflTransGen.refl
        (Step.loadSongs [("A", "a")] initial_state))
      (Step.shuffleToggle (fun l => l) sLoaded))
    (by rfl)).1

end Rhytmiq
